import Mathlib

/-
Verification development for the syzygy call-trace parse engine
(src/syzygy/trace/parse/parse_engine.cc, namespace trace::parser).

The engine consumes framed event records and dispatches them to a handler
while maintaining per-process interval maps of loaded modules.  This file
shallowly embeds the data model and the operations of parse_engine.cc:

  * ModuleSpace               <-> core::AddressSpace<AbsoluteAddress64, ...>
                                  keyed by half-open [base, base+size) ranges
  * ProcessMap                <-> std::map<DWORD, ModuleSpace> processes_
  * addModuleInformation      <-> ParseEngine::AddModuleInformation
  * removeModuleInformation   <-> ParseEngine::RemoveModuleInformation
  * removeProcessInformation  <-> ParseEngine::RemoveProcessInformation
  * getModuleInformation      <-> ParseEngine::GetModuleInformation
  * dispatchEvent             <-> ParseEngine::DispatchEvent and the
                                  per-kind Dispatch* helpers

Machine integers are modelled as Nat; the code targets a 32-bit build where
the pointer-to-uint32 casts are the identity, and no arithmetic in the
modelled paths overflows for the inputs considered.  Handler callbacks are
recorded as values of an inductive type (the engine treats the handler as an
opaque sink with void callbacks).  The AddressSpace container and the wire
structs live outside the analysed sources; they are modelled from the spec
where noted.
-/

namespace Syzygy

/-- A half-open address range [start, start + size), as used by the keys of
core::AddressSpace (ModuleSpace::Range). -/
structure Range where
  start : Nat
  size : Nat
deriving DecidableEq

/-- The one-past-the-end address of a range. -/
def Range.endAddr (r : Range) : Nat := r.start + r.size

/-- Range intersection test of core::AddressSpace::Range::Intersects:
start < other.end() and other.start() < end(). -/
def Range.intersects (a b : Range) : Bool :=
  decide (a.start < b.endAddr ∧ b.start < a.endAddr)

/-- Strict ordering of ranges by (start, end), the sort order of the
interval map keys (spec section 4.B: ordered by base, then end). -/
def Range.ltb (a b : Range) : Bool :=
  decide (a.start < b.start ∨ (a.start = b.start ∧ a.endAddr < b.endAddr))

/-- ModuleInformation from pe::ModuleInformation as used by the parse
engine: one loaded image in a process. -/
structure ModuleInformation where
  base_address : Nat
  module_size : Nat
  path : String
  module_checksum : Nat
  module_time_date_stamp : Nat
deriving DecidableEq

/-- ModuleInformation extended with the mutable eviction mark
(parser::AnnotatedModuleInformation).  Freshly constructed entries are
clean. -/
structure AnnotatedModuleInformation extends ModuleInformation where
  is_dirty : Bool
deriving DecidableEq

/-- An interval map from ranges to annotated module info.  The C++
ModuleSpace is a std::map keyed by Range in (start, end) order; it is
modelled as a list kept in that order by construction, which reproduces the
deterministic iteration and first-intersection semantics. -/
abbrev ModuleSpace := List (Range × AnnotatedModuleInformation)

/-- Modelled from the spec (section 4.B, core::AddressSpace is not among the
analysed sources): FindFirstIntersection returns the first stored range, in
sort order, that overlaps the query. -/
def findFirstIntersection (sp : ModuleSpace) (r : Range) :
    Option (Range × AnnotatedModuleInformation) :=
  sp.find? (fun x => x.1.intersects r)

/-- Insert an entry at its sorted position (the std::map insert). -/
def insertSorted (e : Range × AnnotatedModuleInformation) :
    ModuleSpace → ModuleSpace
  | [] => [e]
  | x :: xs => if Range.ltb e.1 x.1 then e :: x :: xs else x :: insertSorted e xs

/-- Modelled from the spec (section 4.B): Remove(range) erases the entry
with exactly that key.  Keys are unique in the map, so filtering by key
removes at most the one entry. -/
def removeRange (sp : ModuleSpace) (r : Range) : ModuleSpace :=
  sp.filter (fun x => decide (x.1 ≠ r))

/-- Set the dirty mark on the entry with the given key
(it->second.is_dirty = true). -/
def markDirty (sp : ModuleSpace) (r : Range) : ModuleSpace :=
  sp.map (fun x => if x.1 = r then (x.1, { x.2 with is_dirty := true }) else x)

/-- The process registry: std::map<DWORD, ModuleSpace> processes_,
modelled as an association list. -/
abbrev ProcessMap := List (Nat × ModuleSpace)

/-- processes_.find(pid). -/
def pmFind? : ProcessMap → Nat → Option ModuleSpace
  | [], _ => none
  | x :: xs, pid => if x.1 = pid then some x.2 else pmFind? xs pid

/-- Store a binding, replacing any existing binding for the key. -/
def pmInsert : ProcessMap → Nat → ModuleSpace → ProcessMap
  | [], pid, sp => [(pid, sp)]
  | x :: xs, pid, sp => if x.1 = pid then (pid, sp) :: xs else x :: pmInsert xs pid sp

/-- The persistent state of ParseEngine: the conflict policy flag, the
latched fault flag and the process registry.  The engine name and the
handler binding carry no dispatch-relevant state and are omitted. -/
structure EngineState where
  fail_on_module_conflict : Bool
  error_occurred : Bool
  processes : ProcessMap
deriving DecidableEq

/-- Modelled from the spec (section 4.D step 4; base::FilePath is not among
the analysed sources): the final component of a path, after the last
backslash or forward slash. -/
def baseNameAux : List Char → List Char → List Char
  | [], acc => acc.reverse
  | c :: cs, acc =>
    if c = '\\' ∨ c = '/' then baseNameAux cs [] else baseNameAux cs (c :: acc)

/-- base::FilePath(p).BaseName(), modelled from the spec. -/
def baseName (p : String) : String :=
  String.mk (baseNameAux p.data [])

/-- The path-alias reconciliation test of AddModuleInformation
(parse_engine.cc:106-115): all fields except the path match, and the
basenames of the paths agree. -/
def aliasMatch (info : ModuleInformation) (existing : AnnotatedModuleInformation) : Bool :=
  decide (info.base_address = existing.base_address) &&
  decide (info.module_checksum = existing.module_checksum) &&
  decide (info.module_size = existing.module_size) &&
  decide (info.module_time_date_stamp = existing.module_time_date_stamp) &&
  decide (baseName info.path = baseName existing.path)

/-- The range covered by a module: [base_address, base_address + size). -/
def moduleRangeOf (info : ModuleInformation) : Range :=
  ⟨info.base_address, info.module_size⟩

/-- The dirty-eviction loop of AddModuleInformation (parse_engine.cc:121-126)
together with the FindOrInsert attempts around it: try to insert; while the
first colliding entry is dirty, remove it and retry; stop with failure at a
clean colliding entry.  The C++ while loop terminates because every
iteration removes one stored entry; the fuel argument mirrors that bound and
is always called with fuel > |sp|, so the fuel-exhaustion branch is
unreachable (lemma addToSpaceAux_fuel_irrelevant). -/
def addToSpaceAux : Nat → ModuleSpace → Range → AnnotatedModuleInformation →
    Bool × ModuleSpace
  | 0, sp, _, _ => (false, sp)
  | fuel + 1, sp, r, v =>
    match findFirstIntersection sp r with
    | none => (true, insertSorted (r, v) sp)
    | some e =>
      if e.2.is_dirty then addToSpaceAux fuel (removeRange sp e.1) r v
      else (false, sp)

/-- Entry point of the insert-or-evict loop with sufficient fuel. -/
def addToSpace (sp : ModuleSpace) (r : Range) (v : AnnotatedModuleInformation) :
    Bool × ModuleSpace :=
  addToSpaceAux (sp.length + 1) sp r v

/-- The body of AddModuleInformation acting on one module space
(parse_engine.cc:90-136): try FindOrInsert; on collision, first the
path-alias reconciliation on the colliding entry, then the dirty-eviction
loop; an unreconciled clean collision returns failure exactly when the
fail policy flag is set. -/
def addToSpaceTop (fail : Bool) (sp : ModuleSpace) (info : ModuleInformation) :
    Bool × ModuleSpace :=
  let range := moduleRangeOf info
  let newInfo : AnnotatedModuleInformation :=
    { toModuleInformation := info, is_dirty := false }
  match findFirstIntersection sp range with
  | none => (true, insertSorted (range, newInfo) sp)
  | some e =>
    if aliasMatch info e.2 then (true, sp)
    else
      let res := addToSpace sp range newInfo
      (if res.1 then true else if fail then false else true, res.2)

/-- ParseEngine::AddModuleInformation (parse_engine.cc:79-137).
Zero-size and empty-path records are accepted without modification; then
addToSpaceTop runs on the per-pid space.  Note that
processes_[process_id] default-creates the pid binding before any other
work. -/
def addModuleInformation (st : EngineState) (pid : Nat) (info : ModuleInformation) :
    Bool × EngineState :=
  if info.module_size = 0 then (true, st)
  else if info.path = "" then (true, st)
  else
    let res := addToSpaceTop st.fail_on_module_conflict
      ((pmFind? st.processes pid).getD []) info
    (res.1, { st with processes := pmInsert st.processes pid res.2 })

/-- The body of RemoveModuleInformation acting on one module space
(parse_engine.cc:150-178): an unknown range is accepted (duplicate unload
events); a mismatching stored range returns failure when the fail policy
flag is set, without marking; otherwise the found entry is marked dirty but
kept. -/
def removeFromSpace (fail : Bool) (sp : ModuleSpace) (info : ModuleInformation) :
    Bool × ModuleSpace :=
  let range := moduleRangeOf info
  match findFirstIntersection sp range with
  | none => (true, sp)
  | some e =>
    if e.1 ≠ range ∧ fail = true then (false, sp)
    else (true, markDirty sp e.1)

/-- ParseEngine::RemoveModuleInformation (parse_engine.cc:139-179).
Zero-size and empty-path records are accepted without modification; then
removeFromSpace runs on the per-pid space.  As in the source,
processes_[process_id] default-creates the pid binding. -/
def removeModuleInformation (st : EngineState) (pid : Nat) (info : ModuleInformation) :
    Bool × EngineState :=
  if info.module_size = 0 then (true, st)
  else if info.path = "" then (true, st)
  else
    let res := removeFromSpace st.fail_on_module_conflict
      ((pmFind? st.processes pid).getD []) info
    (res.1, { st with processes := pmInsert st.processes pid res.2 })

/-- ParseEngine::RemoveProcessInformation (parse_engine.cc:181-196).
An unknown pid fails; otherwise every module of the process is marked dirty
and the space is retained. -/
def removeProcessInformation (st : EngineState) (pid : Nat) : Bool × EngineState :=
  match pmFind? st.processes pid with
  | none => (false, st)
  | some sp =>
    let sp2 := sp.map (fun x => (x.1, { x.2 with is_dirty := true }))
    (true, { st with processes := pmInsert st.processes pid sp2 })

/-- ParseEngine::GetModuleInformation (parse_engine.cc:62-77): the module
whose range contains the address, dirty entries included. -/
def getModuleInformation (st : EngineState) (pid : Nat) (addr : Nat) :
    Option AnnotatedModuleInformation :=
  match pmFind? st.processes pid with
  | none => none
  | some sp => (findFirstIntersection sp ⟨addr, 1⟩).map (fun x => x.2)

/-! ## Event records and the dispatcher -/

/-- The closed set of event type codes (TraceEventType in the call-trace
protocol).  unknownType stands for any type code outside the enumeration
(the default arm of the switch in DispatchEvent). -/
inductive TraceEventType where
  | enterEvent
  | exitEvent
  | batchEnter
  | processAttach
  | processDetach
  | threadAttach
  | threadDetach
  | processEnded
  | moduleEventReserved
  | batchInvocation
  | threadNameEvent
  | indexedFrequency
  | dynamicSymbol
  | sampleData
  | functionNameTableEntry
  | stackTrace
  | detailedFunctionCall
  | commentEvent
  | processHeap
  | unknownType
deriving DecidableEq

/-- One entry of a TraceBatchEnterData batch (a FuncCall record); a zero
function value models a null function pointer. -/
structure CallRecord where
  function : Nat
  tick_count : Nat
deriving DecidableEq

/-- The fixed-size TraceModuleData payload of module events; a zero
moduleBaseAddr models a null module_base_addr pointer. -/
structure TraceModuleData where
  moduleBaseAddr : Nat
  moduleBaseSize : Nat
  moduleName : String
  moduleChecksum : Nat
  moduleTimeDateStamp : Nat
deriving DecidableEq

/-
Modelled from the spec (section 6; the wire structs of the call-trace
protocol are not among the analysed sources): sizeof and offsetof values of
the fixed-layout payload structs.  The claims depend only on the relations
between these constants, not on the concrete numbers:
  * each trailing variable-length array is declared with one element as the
    last field of its struct, so the offset of the tail is sizeof - tail
    element size (for the byte-array tails, sizeof - 1);
  * all sizes are positive.
-/

/-- sizeof(TraceEnterExitEventData); modelled from the spec. -/
def sizeofTraceEnterExitEventData : Nat := 16

/-- FIELD_OFFSET(TraceBatchEnterData, calls); modelled from the spec. -/
def offsetToCalls : Nat := 8

/-- sizeof(TraceBatchEnterData::calls[0]), one FuncCall record; modelled
from the spec. -/
def sizeofCallRecord : Nat := 8

/-- sizeof(InvocationInfo); modelled from the spec. -/
def sizeofInvocationInfo : Nat := 40

/-- sizeof(TraceIndexedFrequencyData); modelled from the spec: the struct
ends with the one-byte tail array frequency_data[1], so the tail starts at
sizeof - 1. -/
def sizeofTraceIndexedFrequencyData : Nat := 24

/-- offsetof(TraceIndexedFrequencyData, frequency_data); modelled from the
spec (the byte directly before the end of the struct). -/
def offsetFrequencyData : Nat := sizeofTraceIndexedFrequencyData - 1

/-- FIELD_OFFSET(TraceDynamicSymbol, symbol_name); modelled from the spec. -/
def offsetSymbolName : Nat := 4

/-- FIELD_OFFSET(TraceSampleData, buckets); modelled from the spec. -/
def offsetBuckets : Nat := 40

/-- sizeof(TraceSampleData::buckets[0]); modelled from the spec. -/
def sizeofBucket : Nat := 4

/-- sizeof(TraceSampleData), with the one-element buckets tail; modelled
from the spec. -/
def sizeofTraceSampleData : Nat := offsetBuckets + sizeofBucket

/-- FIELD_OFFSET(TraceFunctionNameTableEntry, name); modelled from the
spec. -/
def offsetNameTableName : Nat := 12

/-- sizeof(TraceFunctionNameTableEntry), with the one-byte name tail;
modelled from the spec. -/
def sizeofTraceFunctionNameTableEntry : Nat := offsetNameTableName + 1

/-- FIELD_OFFSET(TraceStackTrace, frames); modelled from the spec. -/
def offsetFrames : Nat := 8

/-- sizeof(void*) in the 32-bit build; modelled from the spec. -/
def sizeofVoidPtr : Nat := 4

/-- sizeof(TraceStackTrace), with the one-element frames tail; modelled
from the spec. -/
def sizeofTraceStackTrace : Nat := offsetFrames + sizeofVoidPtr

/-- FIELD_OFFSET(TraceDetailedFunctionCall, argument_data); modelled from
the spec. -/
def offsetArgumentData : Nat := 16

/-- sizeof(TraceDetailedFunctionCall), with the one-byte tail; modelled
from the spec. -/
def sizeofTraceDetailedFunctionCall : Nat := offsetArgumentData + 1

/-- FIELD_OFFSET(TraceComment, comment); modelled from the spec. -/
def offsetComment : Nat := 4

/-- sizeof(TraceComment), with the one-byte tail; modelled from the spec. -/
def sizeofTraceComment : Nat := offsetComment + 1

/-- sizeof(TraceModuleData); modelled from the spec. -/
def sizeofTraceModuleData : Nat := 532

/-- sizeof(TraceProcessHeap); modelled from the spec. -/
def sizeofTraceProcessHeap : Nat := 12

/-- The typed view of an event payload.  The C++ code reinterprets the raw
MofData bytes as the per-kind wire struct; here the event carries the
decoded view for its kind.  Fields named raw stand for payload contents the
claims never inspect.  A payload whose constructor does not match the event
type stands for bytes that do not decode, and makes the per-kind dispatch
fail; no claim depends on such mismatched events.  The ok flags on the
string-carrying payloads model whether BinaryBufferReader::ReadString finds
a terminated string in the remaining bytes (spec section 4.A; the buffer
reader is not among the analysed sources). -/
inductive EventPayload where
  | enterExit (raw : Nat)
  | batchEnter (threadId : Nat) (numCalls : Nat) (calls : List CallRecord)
  | batchInvocation (raw : Nat)
  | threadName (ok : Bool) (name : String)
  | indexedFrequency (frequencySize : Nat) (numEntries : Nat)
  | dynamicSymbol (ok : Bool) (symbolId : Nat) (name : String)
  | sampleData (bucketCount : Nat)
  | functionNameTableEntry (nameLength : Nat)
  | stackTrace (numFrames : Nat)
  | detailedFunctionCall (argumentDataSize : Nat)
  | commentPayload (commentSize : Nat)
  | processHeap (raw : Nat)
  | moduleData (d : TraceModuleData)
  | emptyPayload
deriving DecidableEq

/-- The recognized call-trace event class GUID (kCallTraceEventClass),
modelled as a distinguished value; any other value is a foreign class. -/
def kCallTraceEventClass : Nat := 1

/-- The EVENT_TRACE header fields the engine reads: Header.Guid,
Header.Class.Type, Header.ProcessId, Header.ThreadId and Header.TimeStamp
(the FILETIME-to-base::Time conversion is value-preserving and modelled as
the identity). -/
structure EventHeader where
  guid : Nat
  eventType : TraceEventType
  processId : Nat
  threadId : Nat
  timestamp : Nat
deriving DecidableEq

/-- One EVENT_TRACE record: the header, the payload byte count MofLength
and the typed view of the MofData bytes.  For the batchEnter view, calls
lists the complete CallRecords present in the buffer after the fixed
header, i.e. floor((mofLength - offsetToCalls) / sizeofCallRecord) records,
so the Consume check num_calls * sizeof(calls[0]) <= remaining bytes is
exactly numCalls <= calls.length. -/
structure Event where
  header : EventHeader
  mofLength : Nat
  payload : EventPayload
deriving DecidableEq

/-- The handler callbacks of ParseEventHandler, recorded with the argument
values the engine passes.  The engine holds the handler as an opaque sink;
a dispatch produces the (possibly empty) sequence of callbacks invoked. -/
inductive HandlerCall where
  | onFunctionEntry (time pid tid raw : Nat)
  | onFunctionExit (time pid tid raw : Nat)
  | onBatchFunctionEntry (time pid tid numCalls : Nat) (calls : List CallRecord)
  | onProcessEnded (time pid : Nat)
  | onInvocationBatch (time pid tid numInvocations raw : Nat)
  | onThreadName (time pid tid : Nat) (name : String)
  | onIndexedFrequency (time pid tid frequencySize numEntries : Nat)
  | onDynamicSymbol (pid symbolId : Nat) (name : String)
  | onSampleData (time pid bucketCount : Nat)
  | onFunctionNameTableEntry (time pid nameLength : Nat)
  | onStackTrace (time pid numFrames : Nat)
  | onDetailedFunctionCall (time pid tid argumentDataSize : Nat)
  | onComment (time pid commentSize : Nat)
  | onProcessHeap (time pid raw : Nat)
  | onProcessAttach (time pid tid : Nat) (d : TraceModuleData)
  | onProcessDetach (time pid tid : Nat) (d : TraceModuleData)
  | onThreadAttach (time pid tid : Nat) (d : TraceModuleData)
  | onThreadDetach (time pid tid : Nat) (d : TraceModuleData)
deriving DecidableEq

/-- The result of one per-kind dispatch: the success flag returned to
DispatchEvent, the handler callbacks invoked, and the updated engine
state. -/
abbrev DispatchResult := Bool × List HandlerCall × EngineState

/-- ParseEngine::DispatchEntryExitEvent (parse_engine.cc:285-320): read the
fixed TraceEnterExitEventData record, then invoke the entry or exit
callback. -/
def dispatchEntryExitEvent (st : EngineState) (e : Event) (type : TraceEventType) :
    DispatchResult :=
  match e.payload with
  | .enterExit raw =>
    if e.mofLength < sizeofTraceEnterExitEventData then (false, [], st)
    else
      match type with
      | .enterEvent =>
        (true, [.onFunctionEntry e.header.timestamp e.header.processId e.header.threadId raw], st)
      | .exitEvent =>
        (true, [.onFunctionExit e.header.timestamp e.header.processId e.header.threadId raw], st)
      | _ => (false, [], st)
  | _ => (false, [], st)

/-- ParseEngine::DispatchBatchEnterEvent (parse_engine.cc:322-361): read
the fixed prefix, require num_calls complete CallRecords, trim the batch by
one when the last record has a null function pointer, then invoke the batch
callback (the thread id is taken from the payload, not the header). -/
def dispatchBatchEnterEvent (st : EngineState) (e : Event) : DispatchResult :=
  match e.payload with
  | .batchEnter tid numCalls calls =>
    if e.mofLength < offsetToCalls then (false, [], st)
    else if calls.length < numCalls then (false, [], st)
    else
      let trimmed :=
        if numCalls ≠ 0 ∧ (calls.get? (numCalls - 1)).map CallRecord.function = some 0
        then numCalls - 1 else numCalls
      (true, [.onBatchFunctionEntry e.header.timestamp e.header.processId tid trimmed calls], st)
  | _ => (false, [], st)

/-- ParseEngine::DispatchProcessEndedEvent (parse_engine.cc:363-376): the
callback is invoked first, then RemoveProcessInformation; its failure is
the dispatch failure. -/
def dispatchProcessEndedEvent (st : EngineState) (e : Event) : DispatchResult :=
  let res := removeProcessInformation st e.header.processId
  (res.1, [.onProcessEnded e.header.timestamp e.header.processId], res.2)

/-- ParseEngine::DispatchBatchInvocationEvent (parse_engine.cc:378-408):
the whole payload must be a multiple of sizeof(InvocationInfo); the read of
MofLength bytes from a MofLength-byte buffer always succeeds, and the
callback receives MofLength / sizeof(InvocationInfo) invocations. -/
def dispatchBatchInvocationEvent (st : EngineState) (e : Event) : DispatchResult :=
  if e.mofLength % sizeofInvocationInfo ≠ 0 then (false, [], st)
  else
    match e.payload with
    | .batchInvocation raw =>
      (true, [.onInvocationBatch e.header.timestamp e.header.processId e.header.threadId
        (e.mofLength / sizeofInvocationInfo) raw], st)
    | _ => (false, [], st)

/-- ParseEngine::DispatchThreadNameEvent (parse_engine.cc:410-433): read a
terminated string and pass it to the callback. -/
def dispatchThreadNameEvent (st : EngineState) (e : Event) : DispatchResult :=
  match e.payload with
  | .threadName ok name =>
    if ok then
      (true, [.onThreadName e.header.timestamp e.header.processId e.header.threadId name], st)
    else (false, [], st)
  | _ => (false, [], st)

/-- ParseEngine::DispatchIndexedFrequencyEvent (parse_engine.cc:435-469):
the payload must cover the fixed struct, and then
frequency_size * num_entries + sizeof(TraceIndexedFrequencyData) - 1
bytes. -/
def dispatchIndexedFrequencyEvent (st : EngineState) (e : Event) : DispatchResult :=
  if e.mofLength < sizeofTraceIndexedFrequencyData then (false, [], st)
  else
    match e.payload with
    | .indexedFrequency fs ne =>
      if e.mofLength < fs * ne + sizeofTraceIndexedFrequencyData - 1 then (false, [], st)
      else
        (true, [.onIndexedFrequency e.header.timestamp e.header.processId e.header.threadId
          fs ne], st)
    | _ => (false, [], st)

/-- ParseEngine::DispatchDynamicSymbolEvent (parse_engine.cc:471-492):
read the fixed prefix up to symbol_name, then a terminated string. -/
def dispatchDynamicSymbolEvent (st : EngineState) (e : Event) : DispatchResult :=
  match e.payload with
  | .dynamicSymbol ok symbolId name =>
    if e.mofLength < offsetSymbolName then (false, [], st)
    else if ok then (true, [.onDynamicSymbol e.header.processId symbolId name], st)
    else (false, [], st)
  | _ => (false, [], st)

/-- ParseEngine::DispatchSampleDataEvent (parse_engine.cc:494-522). -/
def dispatchSampleDataEvent (st : EngineState) (e : Event) : DispatchResult :=
  match e.payload with
  | .sampleData bucketCount =>
    if e.mofLength < sizeofTraceSampleData then (false, [], st)
    else if e.mofLength < offsetBuckets + sizeofBucket * bucketCount then (false, [], st)
    else (true, [.onSampleData e.header.timestamp e.header.processId bucketCount], st)
  | _ => (false, [], st)

/-- ParseEngine::DispatchFunctionNameTableEntryEvent
(parse_engine.cc:524-553). -/
def dispatchFunctionNameTableEntryEvent (st : EngineState) (e : Event) : DispatchResult :=
  match e.payload with
  | .functionNameTableEntry nameLength =>
    if e.mofLength < sizeofTraceFunctionNameTableEntry then (false, [], st)
    else if e.mofLength < offsetNameTableName + nameLength then (false, [], st)
    else (true, [.onFunctionNameTableEntry e.header.timestamp e.header.processId nameLength], st)
  | _ => (false, [], st)

/-- ParseEngine::DispatchStackTrace (parse_engine.cc:555-584). -/
def dispatchStackTrace (st : EngineState) (e : Event) : DispatchResult :=
  match e.payload with
  | .stackTrace numFrames =>
    if e.mofLength < sizeofTraceStackTrace then (false, [], st)
    else if e.mofLength < offsetFrames + numFrames * sizeofVoidPtr then (false, [], st)
    else (true, [.onStackTrace e.header.timestamp e.header.processId numFrames], st)
  | _ => (false, [], st)

/-- ParseEngine::DispatchDetailedFunctionCall (parse_engine.cc:586-617). -/
def dispatchDetailedFunctionCall (st : EngineState) (e : Event) : DispatchResult :=
  match e.payload with
  | .detailedFunctionCall argumentDataSize =>
    if e.mofLength < sizeofTraceDetailedFunctionCall then (false, [], st)
    else if e.mofLength < offsetArgumentData + argumentDataSize then (false, [], st)
    else
      (true, [.onDetailedFunctionCall e.header.timestamp e.header.processId e.header.threadId
        argumentDataSize], st)
  | _ => (false, [], st)

/-- ParseEngine::DispatchComment (parse_engine.cc:619-649). -/
def dispatchComment (st : EngineState) (e : Event) : DispatchResult :=
  match e.payload with
  | .commentPayload commentSize =>
    if e.mofLength < sizeofTraceComment then (false, [], st)
    else if e.mofLength < offsetComment + commentSize then (false, [], st)
    else (true, [.onComment e.header.timestamp e.header.processId commentSize], st)
  | _ => (false, [], st)

/-- ParseEngine::DispatchProcessHeap (parse_engine.cc:651-670). -/
def dispatchProcessHeap (st : EngineState) (e : Event) : DispatchResult :=
  match e.payload with
  | .processHeap raw =>
    if e.mofLength < sizeofTraceProcessHeap then (false, [], st)
    else (true, [.onProcessHeap e.header.timestamp e.header.processId raw], st)
  | _ => (false, [], st)

/-- ModuleTraceDataToModuleInformation (parse_engine.cc:674-684); the
pointer-to-uint32 cast of module_base_addr is the identity in the 32-bit
build targeted by the code. -/
def moduleTraceDataToModuleInformation (d : TraceModuleData) : ModuleInformation :=
  { base_address := d.moduleBaseAddr
    module_size := d.moduleBaseSize
    path := d.moduleName
    module_checksum := d.moduleChecksum
    module_time_date_stamp := d.moduleTimeDateStamp }

/-- ParseEngine::DispatchModuleEvent (parse_engine.cc:688-749): read the
TraceModuleData record; a null module base address is logged and accepted
without further work; a process attach updates the module map BEFORE its
callback, a process detach invokes its callback and then updates the map.
The boolean results of AddModuleInformation (line 719) and
RemoveModuleInformation (line 728) are discarded by the source, so they
never influence the success flag. -/
def dispatchModuleEvent (st : EngineState) (e : Event) (type : TraceEventType) :
    DispatchResult :=
  match e.payload with
  | .moduleData d =>
    if e.mofLength < sizeofTraceModuleData then (false, [], st)
    else if d.moduleBaseAddr = 0 then (true, [], st)
    else
      match type with
      | .processAttach =>
        let res := addModuleInformation st e.header.processId
          (moduleTraceDataToModuleInformation d)
        (true, [.onProcessAttach e.header.timestamp e.header.processId e.header.threadId d],
          res.2)
      | .processDetach =>
        let res := removeModuleInformation st e.header.processId
          (moduleTraceDataToModuleInformation d)
        (true, [.onProcessDetach e.header.timestamp e.header.processId e.header.threadId d],
          res.2)
      | .threadAttach =>
        (true, [.onThreadAttach e.header.timestamp e.header.processId e.header.threadId d], st)
      | .threadDetach =>
        (true, [.onThreadDetach e.header.timestamp e.header.processId e.header.threadId d], st)
      | _ => (false, [], st)
  | _ => (false, [], st)

/-- ParseEngine::DispatchEvent (parse_engine.cc:198-283): a foreign class
GUID returns false immediately without touching any state; otherwise the
type code selects the per-kind dispatcher (success starts out false, so the
reserved TRACE_MODULE_EVENT arm, which only logs, and the default arm leave
it false), any failure latches error_occurred_, and the function returns
true. -/
def dispatchEvent (st : EngineState) (e : Event) : DispatchResult :=
  if e.header.guid ≠ kCallTraceEventClass then (false, [], st)
  else
    let r : DispatchResult :=
      match e.header.eventType with
      | .enterEvent => dispatchEntryExitEvent st e .enterEvent
      | .exitEvent => dispatchEntryExitEvent st e .exitEvent
      | .batchEnter => dispatchBatchEnterEvent st e
      | .processAttach => dispatchModuleEvent st e .processAttach
      | .processDetach => dispatchModuleEvent st e .processDetach
      | .threadAttach => dispatchModuleEvent st e .threadAttach
      | .threadDetach => dispatchModuleEvent st e .threadDetach
      | .processEnded => dispatchProcessEndedEvent st e
      | .moduleEventReserved => (false, [], st)
      | .batchInvocation => dispatchBatchInvocationEvent st e
      | .threadNameEvent => dispatchThreadNameEvent st e
      | .indexedFrequency => dispatchIndexedFrequencyEvent st e
      | .dynamicSymbol => dispatchDynamicSymbolEvent st e
      | .sampleData => dispatchSampleDataEvent st e
      | .functionNameTableEntry => dispatchFunctionNameTableEntryEvent st e
      | .stackTrace => dispatchStackTrace st e
      | .detailedFunctionCall => dispatchDetailedFunctionCall st e
      | .commentEvent => dispatchComment st e
      | .processHeap => dispatchProcessHeap st e
      | .unknownType => (false, [], st)
    (true, r.2.1, if r.1 then r.2.2 else { r.2.2 with error_occurred := true })

/-! ## Concrete states and events used by witnesses and counterexamples -/

/-- A freshly constructed engine with the lenient conflict policy. -/
def engineLenient : EngineState :=
  { fail_on_module_conflict := false, error_occurred := false, processes := [] }

/-- A freshly constructed engine with fail_on_module_conflict = true. -/
def engineStrict : EngineState :=
  { fail_on_module_conflict := true, error_occurred := false, processes := [] }

/-- Module record at base 0x1000, size 0x2000, checksum 1. -/
def moduleDataA : TraceModuleData :=
  { moduleBaseAddr := 4096, moduleBaseSize := 8192, moduleName := "a.dll",
    moduleChecksum := 1, moduleTimeDateStamp := 0 }

/-- The same range as moduleDataA but a different checksum. -/
def moduleDataB : TraceModuleData := { moduleDataA with moduleChecksum := 2 }

/-- A well-formed ProcessAttach record for pid 100 carrying the given
module data. -/
def attachEventOf (d : TraceModuleData) : Event :=
  { header := { guid := kCallTraceEventClass, eventType := .processAttach,
                processId := 100, threadId := 7, timestamp := 0 },
    mofLength := sizeofTraceModuleData,
    payload := .moduleData d }

/-- A module record for direct module-tracker calls. -/
def moduleInfoX : ModuleInformation :=
  { base_address := 0, module_size := 1, path := "x", module_checksum := 0,
    module_time_date_stamp := 0 }

/-- A second module record whose range does not overlap moduleInfoX. -/
def moduleInfoY : ModuleInformation :=
  { base_address := 10, module_size := 1, path := "y", module_checksum := 0,
    module_time_date_stamp := 0 }

/-- A reserved TRACE_MODULE_EVENT record. -/
def reservedModuleEvent : Event :=
  { header := { guid := kCallTraceEventClass, eventType := .moduleEventReserved,
                processId := 1, threadId := 1, timestamp := 0 },
    mofLength := 0, payload := .emptyPayload }

/-- An IndexedFrequency record with frequency_size = num_entries = 0 whose
payload length equals offsetof(TraceIndexedFrequencyData, frequency_data) +
frequency_size * num_entries. -/
def degenerateFrequencyEvent : Event :=
  { header := { guid := kCallTraceEventClass, eventType := .indexedFrequency,
                processId := 1, threadId := 1, timestamp := 0 },
    mofLength := offsetFrequencyData, payload := .indexedFrequency 0 0 }

/-- An event of a foreign class GUID. -/
def foreignEvent : Event :=
  { header := { guid := 999, eventType := .enterEvent, processId := 1, threadId := 1,
                timestamp := 0 },
    mofLength := 0, payload := .emptyPayload }

/-- Three call records; the last one has a null function pointer. -/
def callA : CallRecord := { function := 4660, tick_count := 1 }

/-- A second complete call record. -/
def callB : CallRecord := { function := 4661, tick_count := 2 }

/-- A call record with function = null (interrupted mid-write). -/
def callNull : CallRecord := { function := 0, tick_count := 3 }

/-- A BatchEnter record with num_calls = 3 whose last call is null. -/
def batchEnterEventW : Event :=
  { header := { guid := kCallTraceEventClass, eventType := .batchEnter,
                processId := 100, threadId := 9, timestamp := 2 },
    mofLength := offsetToCalls + 3 * sizeofCallRecord,
    payload := .batchEnter 5 3 [callA, callB, callNull] }

/-- A BatchInvocation record whose length is not a multiple of
sizeof(InvocationInfo). -/
def invocationEventBad : Event :=
  { header := { guid := kCallTraceEventClass, eventType := .batchInvocation,
                processId := 1, threadId := 2, timestamp := 3 },
    mofLength := sizeofInvocationInfo + 1, payload := .batchInvocation 0 }

/-- A BatchInvocation record carrying exactly two invocations. -/
def invocationEventGood : Event :=
  { invocationEventBad with mofLength := 2 * sizeofInvocationInfo }

/-- An IndexedFrequency record with payload length exactly equal to the
expected length for 2 x 3 tail bytes. -/
def freqEventOk : Event :=
  { header := { guid := kCallTraceEventClass, eventType := .indexedFrequency,
                processId := 3, threadId := 4, timestamp := 5 },
    mofLength := offsetFrequencyData + 6, payload := .indexedFrequency 2 3 }

/-- The same record one byte short of the expected length. -/
def freqEventShort : Event := { freqEventOk with mofLength := offsetFrequencyData + 5 }

/-- A well-formed ProcessAttach record for pid 50. -/
def attachEvent50 (d : TraceModuleData) : Event :=
  { header := { guid := kCallTraceEventClass, eventType := .processAttach,
                processId := 50, threadId := 7, timestamp := 0 },
    mofLength := sizeofTraceModuleData, payload := .moduleData d }

/-- A ProcessEnded record for pid 50. -/
def processEndedEvent50 : Event :=
  { header := { guid := kCallTraceEventClass, eventType := .processEnded,
                processId := 50, threadId := 7, timestamp := 1 },
    mofLength := 0, payload := .emptyPayload }

/-- The engine after attaching moduleDataA to pid 50 and then seeing pid 50
end: the only stored module of pid 50 is dirty. -/
def staleReuseState : EngineState :=
  (dispatchEvent (dispatchEvent engineLenient (attachEvent50 moduleDataA)).2.2
    processEndedEvent50).2.2

/-- The engine after the first strict-mode attach of moduleDataA. -/
def conflictState : EngineState :=
  (dispatchEvent engineStrict (attachEventOf moduleDataA)).2.2

/-- The engine after adding the two disjoint modules moduleInfoX and
moduleInfoY to pid 1. -/
def twoModuleState : EngineState :=
  (addModuleInformation (addModuleInformation engineLenient 1 moduleInfoX).2 1 moduleInfoY).2

/-- The stored entry for moduleInfoX in twoModuleState. -/
def entryX : Range × AnnotatedModuleInformation :=
  (⟨0, 1⟩, { toModuleInformation := moduleInfoX, is_dirty := false })

/-- The stored entry for moduleInfoY in twoModuleState. -/
def entryY : Range × AnnotatedModuleInformation :=
  (⟨10, 1⟩, { toModuleInformation := moduleInfoY, is_dirty := false })

/-- moduleDataA with a null module base address. -/
def nullBaseModuleData : TraceModuleData := { moduleDataA with moduleBaseAddr := 0 }

/-- A ProcessAttach record whose module base address is null. -/
def nullBaseAttachEvent : Event := attachEventOf nullBaseModuleData

/-! ## Invariants and reachability -/

/-- No two stored ranges of a module space overlap. -/
def spaceDisjoint (sp : ModuleSpace) : Prop :=
  sp.Pairwise (fun a b => a.1.intersects b.1 = false)

/-- Every module space stored in the registry is overlap-free. -/
def processesDisjoint (m : ProcessMap) : Prop :=
  ∀ pid sp, pmFind? m pid = some sp → spaceDisjoint sp

/-- Engine states reachable from a freshly constructed engine by any
sequence of module-tracker operations (AddModuleInformation,
RemoveModuleInformation, RemoveProcessInformation). -/
inductive Reachable : EngineState → Prop where
  | init (flag : Bool) :
      Reachable { fail_on_module_conflict := flag, error_occurred := false, processes := [] }
  | addModule (st : EngineState) (pid : Nat) (info : ModuleInformation) :
      Reachable st → Reachable (addModuleInformation st pid info).2
  | removeModule (st : EngineState) (pid : Nat) (info : ModuleInformation) :
      Reachable st → Reachable (removeModuleInformation st pid info).2
  | removeProcess (st : EngineState) (pid : Nat) :
      Reachable st → Reachable (removeProcessInformation st pid).2

/-! ## Helper lemmas -/

theorem Range.intersects_iff {a b : Range} :
    a.intersects b = true ↔ a.start < b.endAddr ∧ b.start < a.endAddr := by
  simp [Range.intersects]

theorem Range.intersects_comm (a b : Range) : a.intersects b = b.intersects a :=
  decide_eq_decide.mpr and_comm

theorem mem_insertSorted {e y : Range × AnnotatedModuleInformation} {l : ModuleSpace} :
    y ∈ insertSorted e l ↔ y = e ∨ y ∈ l := by
  induction l with
  | nil => simp [insertSorted]
  | cons x xs ih =>
    simp only [insertSorted]
    split
    · simp
    · simp [ih]
      tauto

theorem find?_insertSorted {p : Range × AnnotatedModuleInformation → Bool}
    {e : Range × AnnotatedModuleInformation} {l : ModuleSpace}
    (hp : p e = true) (hl : ∀ y ∈ l, p y = false) :
    (insertSorted e l).find? p = some e := by
  induction l with
  | nil => simp [insertSorted, List.find?_cons_of_pos, hp]
  | cons x xs ih =>
    simp only [insertSorted]
    split
    · rw [List.find?_cons_of_pos _ hp]
    · have hx : p x = false := hl x (by simp)
      rw [List.find?_cons_of_neg _ (by simp [hx])]
      exact ih (fun y hy => hl y (by simp [hy]))

theorem findFirstIntersection_eq_none {sp : ModuleSpace} {r : Range} :
    findFirstIntersection sp r = none ↔ ∀ y ∈ sp, y.1.intersects r = false := by
  simp [findFirstIntersection, List.find?_eq_none]

theorem mem_of_findFirstIntersection {sp : ModuleSpace} {r : Range} {e}
    (h : findFirstIntersection sp r = some e) : e ∈ sp :=
  List.mem_of_find?_eq_some h

theorem mem_of_mem_removeRange {sp : ModuleSpace} {r : Range} {y}
    (h : y ∈ removeRange sp r) : y ∈ sp := (List.mem_filter.mp h).1

theorem removeRange_length_lt {sp : ModuleSpace} {e : Range × AnnotatedModuleInformation}
    (he : e ∈ sp) : (removeRange sp e.1).length < sp.length := by
  induction sp with
  | nil => cases he
  | cons x xs ih =>
    rcases List.mem_cons.mp he with hx | hmem
    · subst hx
      have hdec : decide (e.1 ≠ e.1) = false := decide_eq_false (fun h => h rfl)
      rw [removeRange, List.filter_cons, hdec]
      simpa using Nat.lt_succ_of_le (List.length_filter_le _ _)
    · have hlt := ih hmem
      simp only [removeRange] at hlt ⊢
      rw [List.filter_cons]
      cases h : decide (x.1 ≠ e.1)
      · simpa using Nat.lt_succ_of_lt hlt
      · simpa using Nat.succ_lt_succ hlt

/-- The fuel bound of addToSpaceAux is exact: with more than |sp| units of
fuel the fuel-exhaustion branch is unreachable, so the result does not
depend on the fuel. -/
theorem addToSpaceAux_fuel_irrelevant {r : Range} {v : AnnotatedModuleInformation} :
    ∀ (f1 f2 : Nat) (sp : ModuleSpace), sp.length < f1 → sp.length < f2 →
    addToSpaceAux f1 sp r v = addToSpaceAux f2 sp r v := by
  intro f1
  induction f1 with
  | zero => intro f2 sp h1; omega
  | succ n ih =>
    intro f2 sp h1 h2
    cases f2 with
    | zero => omega
    | succ m =>
      simp only [addToSpaceAux]
      cases hfind : findFirstIntersection sp r with
      | none => rfl
      | some e =>
        have he := mem_of_findFirstIntersection hfind
        have hlt := removeRange_length_lt he
        by_cases hd : e.2.is_dirty = true
        · simp only [hd, if_true]
          exact ih m (removeRange sp e.1) (by omega) (by omega)
        · simp [hd]

theorem addToSpaceAux_allDirty (r : Range) (v : AnnotatedModuleInformation) :
    ∀ (fuel : Nat) (sp : ModuleSpace), sp.length < fuel →
    (∀ x ∈ sp, x.2.is_dirty = true) →
    ∃ sp2, addToSpaceAux fuel sp r v = (true, insertSorted (r, v) sp2) ∧
      (∀ x ∈ sp2, x ∈ sp) ∧ findFirstIntersection sp2 r = none := by
  intro fuel
  induction fuel with
  | zero => intro sp h1 _; omega
  | succ n ih =>
    intro sp hlen hd
    simp only [addToSpaceAux]
    cases hfind : findFirstIntersection sp r with
    | none => exact ⟨sp, rfl, fun x hx => hx, hfind⟩
    | some e =>
      have he := mem_of_findFirstIntersection hfind
      have hdirty : e.2.is_dirty = true := hd e he
      simp only [hdirty, if_true]
      have hlt := removeRange_length_lt he
      obtain ⟨sp2, h1, h2, h3⟩ := ih (removeRange sp e.1) (by omega)
        (fun x hx => hd x (mem_of_mem_removeRange hx))
      exact ⟨sp2, h1, fun x hx => mem_of_mem_removeRange (h2 x hx), h3⟩

theorem spaceDisjoint_insertSorted {sp : ModuleSpace} {r : Range}
    {v : AnnotatedModuleInformation}
    (hsp : spaceDisjoint sp) (hnone : ∀ y ∈ sp, y.1.intersects r = false) :
    spaceDisjoint (insertSorted (r, v) sp) := by
  induction sp with
  | nil => simp [insertSorted, spaceDisjoint]
  | cons x xs ih =>
    simp only [insertSorted]
    rw [spaceDisjoint] at hsp
    rcases List.pairwise_cons.mp hsp with ⟨hx, hxs⟩
    split
    · rw [spaceDisjoint, List.pairwise_cons]
      refine ⟨fun y hy => ?_, hsp⟩
      rw [Range.intersects_comm]
      exact hnone y hy
    · rw [spaceDisjoint, List.pairwise_cons]
      refine ⟨fun y hy => ?_, ih hxs (fun y hy => hnone y (by simp [hy]))⟩
      rcases mem_insertSorted.mp hy with rfl | hmem
      · exact hnone x (by simp)
      · exact hx y hmem

theorem spaceDisjoint_removeRange {sp : ModuleSpace} {r : Range}
    (h : spaceDisjoint sp) : spaceDisjoint (removeRange sp r) :=
  List.Pairwise.filter _ h

theorem spaceDisjoint_map_keyPreserving {sp : ModuleSpace}
    {f : Range × AnnotatedModuleInformation → Range × AnnotatedModuleInformation}
    (hf : ∀ x, (f x).1 = x.1) (h : spaceDisjoint sp) : spaceDisjoint (sp.map f) := by
  rw [spaceDisjoint, List.pairwise_map]
  exact h.imp (fun ha => by rwa [hf, hf])

theorem addToSpaceAux_disjoint {r : Range} {v : AnnotatedModuleInformation} :
    ∀ (fuel : Nat) (sp : ModuleSpace), spaceDisjoint sp →
    spaceDisjoint (addToSpaceAux fuel sp r v).2 := by
  intro fuel
  induction fuel with
  | zero => intro sp h; simpa [addToSpaceAux] using h
  | succ n ih =>
    intro sp h
    simp only [addToSpaceAux]
    cases hfind : findFirstIntersection sp r with
    | none =>
      exact spaceDisjoint_insertSorted h (findFirstIntersection_eq_none.mp hfind)
    | some e =>
      by_cases hd : e.2.is_dirty = true
      · simp only [hd, if_true]
        exact ih (removeRange sp e.1) (spaceDisjoint_removeRange h)
      · simpa [hd] using h

theorem pmFind?_pmInsert (m : ProcessMap) (q pid : Nat) (sp : ModuleSpace) :
    pmFind? (pmInsert m q sp) pid = if q = pid then some sp else pmFind? m pid := by
  induction m with
  | nil =>
    by_cases hq : q = pid <;> simp [pmInsert, pmFind?, hq]
  | cons x xs ih =>
    by_cases hx : x.1 = q
    · by_cases hq : q = pid <;> simp [pmInsert, pmFind?, hx, hq]
    · by_cases hq : q = pid
      · subst hq
        simp [pmInsert, pmFind?, hx, ih]
      · simp [pmInsert, pmFind?, hx, hq, ih]

theorem spaceDisjoint_getD {m : ProcessMap} {pid : Nat}
    (h : processesDisjoint m) : spaceDisjoint ((pmFind? m pid).getD []) := by
  cases hf : pmFind? m pid with
  | none => simp [spaceDisjoint]
  | some sp => exact h pid sp hf

theorem processesDisjoint_pmInsert {m : ProcessMap} {q : Nat} {sp : ModuleSpace}
    (h : processesDisjoint m) (hsp : spaceDisjoint sp) :
    processesDisjoint (pmInsert m q sp) := by
  intro pid sp0 hf
  rw [pmFind?_pmInsert] at hf
  split at hf
  · injection hf with hh
    rw [← hh]
    exact hsp
  · exact h pid sp0 hf

theorem spaceDisjoint_markDirty {sp : ModuleSpace} {r : Range}
    (h : spaceDisjoint sp) : spaceDisjoint (markDirty sp r) := by
  refine spaceDisjoint_map_keyPreserving (fun x => ?_) h
  by_cases hx : x.1 = r <;> simp [hx]

theorem addToSpaceTop_disjoint (fail : Bool) (sp : ModuleSpace) (info : ModuleInformation)
    (h : spaceDisjoint sp) : spaceDisjoint (addToSpaceTop fail sp info).2 := by
  simp only [addToSpaceTop]
  split
  · next hfind =>
    exact spaceDisjoint_insertSorted h (findFirstIntersection_eq_none.mp hfind)
  · next e hfind =>
    split
    · exact h
    · exact addToSpaceAux_disjoint _ _ h

theorem removeFromSpace_disjoint (fail : Bool) (sp : ModuleSpace) (info : ModuleInformation)
    (h : spaceDisjoint sp) : spaceDisjoint (removeFromSpace fail sp info).2 := by
  simp only [removeFromSpace]
  split
  · exact h
  · split
    · exact h
    · exact spaceDisjoint_markDirty h

theorem processesDisjoint_addModule (st : EngineState) (pid : Nat)
    (info : ModuleInformation) (h : processesDisjoint st.processes) :
    processesDisjoint (addModuleInformation st pid info).2.processes := by
  simp only [addModuleInformation]
  split
  · exact h
  split
  · exact h
  exact processesDisjoint_pmInsert h (addToSpaceTop_disjoint _ _ _ (spaceDisjoint_getD h))

theorem processesDisjoint_removeModule (st : EngineState) (pid : Nat)
    (info : ModuleInformation) (h : processesDisjoint st.processes) :
    processesDisjoint (removeModuleInformation st pid info).2.processes := by
  simp only [removeModuleInformation]
  split
  · exact h
  split
  · exact h
  exact processesDisjoint_pmInsert h (removeFromSpace_disjoint _ _ _ (spaceDisjoint_getD h))

theorem processesDisjoint_removeProcess (st : EngineState) (pid : Nat)
    (h : processesDisjoint st.processes) :
    processesDisjoint (removeProcessInformation st pid).2.processes := by
  simp only [removeProcessInformation]
  split
  · exact h
  · next sp hf =>
    exact processesDisjoint_pmInsert h
      (spaceDisjoint_map_keyPreserving (fun x => rfl) (h pid sp hf))

/-- Every reachable engine state has pairwise non-overlapping ranges in
every stored module space. -/
theorem reachable_processesDisjoint (st : EngineState) (h : Reachable st) :
    processesDisjoint st.processes := by
  induction h with
  | init flag => intro pid sp hf; cases hf
  | addModule st pid info _ ih => exact processesDisjoint_addModule st pid info ih
  | removeModule st pid info _ ih => exact processesDisjoint_removeModule st pid info ih
  | removeProcess st pid _ ih => exact processesDisjoint_removeProcess st pid ih

theorem addModuleInformation_flags (st : EngineState) (pid : Nat) (info : ModuleInformation) :
    (addModuleInformation st pid info).2.fail_on_module_conflict = st.fail_on_module_conflict ∧
    (addModuleInformation st pid info).2.error_occurred = st.error_occurred := by
  simp only [addModuleInformation]
  split
  · exact ⟨rfl, rfl⟩
  split
  · exact ⟨rfl, rfl⟩
  · exact ⟨rfl, rfl⟩

/-- AddModuleInformation can report failure only under the strict conflict
policy. -/
theorem addModuleInformation_false_flag (st : EngineState) (pid : Nat)
    (info : ModuleInformation) (h : (addModuleInformation st pid info).1 = false) :
    st.fail_on_module_conflict = true := by
  simp only [addModuleInformation] at h
  split at h
  · exact Bool.noConfusion h
  split at h
  · exact Bool.noConfusion h
  simp only [addToSpaceTop] at h
  split at h
  · exact Bool.noConfusion h
  split at h
  · exact Bool.noConfusion h
  split at h
  · exact Bool.noConfusion h
  split at h
  · assumption
  · exact Bool.noConfusion h

theorem findFirstIntersection_insert_base {sp2 : ModuleSpace} (r : Range)
    {v : AnnotatedModuleInformation} (hr : r.size ≠ 0)
    (hnone : findFirstIntersection sp2 r = none) :
    findFirstIntersection (insertSorted (r, v) sp2) ⟨r.start, 1⟩ = some (r, v) := by
  simp only [findFirstIntersection]
  apply find?_insertSorted
  · rw [Range.intersects_iff]
    simp only [Range.endAddr]
    omega
  · intro y hy
    have hy2 := findFirstIntersection_eq_none.mp hnone y hy
    rw [Bool.eq_false_iff]
    intro hcontr
    rw [Range.intersects_iff] at hcontr
    rw [Bool.eq_false_iff] at hy2
    apply hy2
    rw [Range.intersects_iff]
    simp only [Range.endAddr] at hcontr ⊢
    omega

/-- On a module space whose entries are all dirty, an add whose checksum
differs from every stored entry always succeeds: the alias reconciliation
cannot fire, the eviction loop removes every colliding entry, and the new
module is installed so that a lookup at its base address finds it. -/
theorem addToSpaceTop_allDirty (fail : Bool) (sp : ModuleSpace) (info : ModuleInformation)
    (hsize : info.module_size ≠ 0)
    (hd : ∀ x ∈ sp, x.2.is_dirty = true)
    (hck : ∀ x ∈ sp, x.2.module_checksum ≠ info.module_checksum) :
    (addToSpaceTop fail sp info).1 = true ∧
    findFirstIntersection (addToSpaceTop fail sp info).2 ⟨info.base_address, 1⟩ =
      some (moduleRangeOf info, { toModuleInformation := info, is_dirty := false }) := by
  simp only [addToSpaceTop]
  split
  · next hfind =>
    exact ⟨rfl, findFirstIntersection_insert_base (moduleRangeOf info)
      (by simpa [moduleRangeOf] using hsize) hfind⟩
  · next e hfind =>
    have he := mem_of_findFirstIntersection hfind
    have hck2 : ¬ info.module_checksum = e.2.module_checksum :=
      fun hh => hck e he hh.symm
    have halias : aliasMatch info e.2 = false := by
      simp [aliasMatch, hck2]
    rw [halias]
    simp only [Bool.false_eq_true, if_false]
    obtain ⟨sp2, heq, hsub, hnone2⟩ :=
      addToSpaceAux_allDirty (moduleRangeOf info)
        { toModuleInformation := info, is_dirty := false } (sp.length + 1) sp
        (by omega) hd
    simp only [addToSpace, heq]
    constructor
    · simp
    · simpa using findFirstIntersection_insert_base (moduleRangeOf info)
        (by simpa [moduleRangeOf] using hsize) hnone2

/-- AddModuleInformation on a pid whose modules are all dirty, with a
checksum different from every stored entry, succeeds and installs the
module. -/
theorem addModuleInformation_allDirty (st : EngineState) (pid : Nat)
    (info : ModuleInformation)
    (hsize : info.module_size ≠ 0) (hpath : info.path ≠ "")
    (hd : ∀ x ∈ (pmFind? st.processes pid).getD [], x.2.is_dirty = true)
    (hck : ∀ x ∈ (pmFind? st.processes pid).getD [],
      x.2.module_checksum ≠ info.module_checksum) :
    (addModuleInformation st pid info).1 = true ∧
    getModuleInformation (addModuleInformation st pid info).2 pid info.base_address =
      some { toModuleInformation := info, is_dirty := false } := by
  have hmain := addToSpaceTop_allDirty st.fail_on_module_conflict
    ((pmFind? st.processes pid).getD []) info hsize hd hck
  simp only [addModuleInformation, hsize, hpath, if_false]
  refine ⟨hmain.1, ?_⟩
  simp [getModuleInformation, pmFind?_pmInsert, hmain.2]

/-! ## Claims -/

/-- Claim C7: DispatchEvent returns false exactly when the record's class
GUID is foreign, and a foreign record leaves the engine state untouched and
invokes no handler callback; every record of the recognized class returns
true (even when per-kind validation fails), so the latched fault flag is
the only failure signal. -/
theorem dispatch_foreign_class (st : EngineState) (e : Event) :
    ((dispatchEvent st e).1 = false ↔ e.header.guid ≠ kCallTraceEventClass) ∧
    (e.header.guid ≠ kCallTraceEventClass →
      (dispatchEvent st e).2.2 = st ∧ (dispatchEvent st e).2.1 = []) := by
  by_cases h : e.header.guid = kCallTraceEventClass
  · simp [dispatchEvent, h]
  · simp [dispatchEvent, h]

/-- Witness for C7 at a concrete foreign event. -/
theorem dispatch_foreign_class_witness :
    (dispatchEvent engineLenient foreignEvent).2.2 = engineLenient ∧
    (dispatchEvent engineLenient foreignEvent).2.1 = [] :=
  (dispatch_foreign_class engineLenient foreignEvent).2 (by decide)

/-- Claim C2 counterexample: dispatching the reserved TRACE_MODULE_EVENT
latches the fault — error_occurred() is true after the dispatch (the
success flag stays false through the logging arm, parse_engine.cc:230-232
and 279-280) — contradicting the claim that the fault stays clear; no
handler callback is invoked. -/
theorem module_reserved_ignored_counterexample :
    (dispatchEvent engineLenient reservedModuleEvent).2.2.error_occurred = true ∧
    (dispatchEvent engineLenient reservedModuleEvent).2.1 = [] := by decide

/-- Claim C2 (amended): an event of the reserved Module kind is logged and
invokes no handler callback, but it is treated as a failed dispatch: the
fault latches, so error_occurred() returns true after the dispatch (which
itself returns true). -/
theorem module_reserved_latches_fault (st : EngineState) (e : Event)
    (hg : e.header.guid = kCallTraceEventClass)
    (ht : e.header.eventType = .moduleEventReserved) :
    dispatchEvent st e = (true, [], { st with error_occurred := true }) := by
  simp [dispatchEvent, hg, ht]

/-- Witness for the amended C2 at a concrete reserved event. -/
theorem module_reserved_latches_fault_witness :
    dispatchEvent engineLenient reservedModuleEvent =
      (true, [], { engineLenient with error_occurred := true }) :=
  module_reserved_latches_fault engineLenient reservedModuleEvent rfl rfl

/-- Claim C3 counterexample: RemoveModuleInformation for a process id never
seen (nonzero size, nonempty path, no intersecting range) returns success
but does NOT leave the engine state unchanged: processes_[process_id]
default-creates an empty ModuleSpace for the pid (parse_engine.cc:150). -/
theorem removeModule_unknown_pid_counterexample :
    (removeModuleInformation engineLenient 7 moduleInfoX).1 = true ∧
    (removeModuleInformation engineLenient 7 moduleInfoX).2.processes ≠
      engineLenient.processes := by decide

/-- Claim C3 (amended): RemoveModule on a range intersecting nothing in the
pid's space returns success and leaves the flags, the pid's module entries
and every other process's entry unchanged — except that a pid not yet in
the registry gains an empty ModuleSpace binding. -/
theorem removeModule_unknown_range_noop (st : EngineState) (pid : Nat)
    (info : ModuleInformation)
    (hnone : findFirstIntersection ((pmFind? st.processes pid).getD [])
      (moduleRangeOf info) = none) :
    (removeModuleInformation st pid info).1 = true ∧
    (removeModuleInformation st pid info).2.fail_on_module_conflict =
      st.fail_on_module_conflict ∧
    (removeModuleInformation st pid info).2.error_occurred = st.error_occurred ∧
    ((pmFind? (removeModuleInformation st pid info).2.processes pid).getD [] =
      (pmFind? st.processes pid).getD []) ∧
    (∀ q, q ≠ pid →
      pmFind? (removeModuleInformation st pid info).2.processes q =
        pmFind? st.processes q) := by
  simp only [removeModuleInformation]
  split
  · simp
  split
  · simp
  · simp only [removeFromSpace, hnone]
    refine ⟨trivial, trivial, trivial, ?_, ?_⟩
    · simp [pmFind?_pmInsert]
    · intro q hq
      have hpq : ¬ pid = q := fun hh => hq hh.symm
      simp [pmFind?_pmInsert, hpq]

/-- Witness for the amended C3: an unseen pid, evaluated concretely. -/
theorem removeModule_unknown_range_noop_witness :
    (removeModuleInformation engineLenient 7 moduleInfoX).1 = true ∧
    pmFind? (removeModuleInformation engineLenient 7 moduleInfoX).2.processes 9 =
      pmFind? engineLenient.processes 9 := by
  have h := removeModule_unknown_range_noop engineLenient 7 moduleInfoX (by decide)
  exact ⟨h.1, h.2.2.2.2 9 (by decide)⟩

/-- Claim C10: a process-attach, process-detach, thread-attach or
thread-detach event whose module record has a null module base address is
accepted (dispatch returns true) without invoking any handler callback and
without changing the engine state — in particular the module maps and the
fault flag are untouched. -/
theorem module_event_null_base_ignored (st : EngineState) (e : Event)
    (d : TraceModuleData)
    (hg : e.header.guid = kCallTraceEventClass)
    (ht : e.header.eventType = .processAttach ∨ e.header.eventType = .processDetach ∨
      e.header.eventType = .threadAttach ∨ e.header.eventType = .threadDetach)
    (hp : e.payload = .moduleData d)
    (hlen : sizeofTraceModuleData ≤ e.mofLength)
    (hbase : d.moduleBaseAddr = 0) :
    dispatchEvent st e = (true, [], st) := by
  have h1 : ¬ e.mofLength < sizeofTraceModuleData := Nat.not_lt.mpr hlen
  rcases ht with ht | ht | ht | ht <;>
    simp [dispatchEvent, dispatchModuleEvent, hg, ht, hp, h1, hbase]

/-- Witness for C10 at a concrete null-base attach. -/
theorem module_event_null_base_ignored_witness :
    dispatchEvent engineLenient nullBaseAttachEvent = (true, [], engineLenient) :=
  module_event_null_base_ignored engineLenient nullBaseAttachEvent nullBaseModuleData
    rfl (Or.inl rfl) rfl (by decide) rfl

/-- Claim C5: a BatchEnter with num_calls >= 1, whose payload carries
num_calls complete CallRecords and whose last CallRecord has a null
function pointer, is delivered to the batch callback with num_calls
decremented by one; dispatch returns true and the engine state (including
the fault flag) is unchanged. -/
theorem batch_enter_truncated_delivery (st : EngineState) (e : Event)
    (tid n : Nat) (calls : List CallRecord) (c : CallRecord)
    (hg : e.header.guid = kCallTraceEventClass)
    (ht : e.header.eventType = .batchEnter)
    (hp : e.payload = .batchEnter tid n calls)
    (hn : 1 ≤ n)
    (hlen : offsetToCalls ≤ e.mofLength)
    (hcalls : n ≤ calls.length)
    (hlast : calls.get? (n - 1) = some c)
    (hnull : c.function = 0) :
    (dispatchEvent st e).1 = true ∧
    (dispatchEvent st e).2.1 =
      [.onBatchFunctionEntry e.header.timestamp e.header.processId tid (n - 1) calls] ∧
    (dispatchEvent st e).2.2 = st := by
  have h1 : ¬ e.mofLength < offsetToCalls := Nat.not_lt.mpr hlen
  have h2 : ¬ calls.length < n := Nat.not_lt.mpr hcalls
  have h0 : n ≠ 0 := by omega
  have h4 : calls[n - 1]? = some c := by simpa using hlast
  simp [dispatchEvent, dispatchBatchEnterEvent, hg, ht, hp, h1, h2, h0, h4, hnull]

/-- Witness for C5: a batch of three calls whose last is null is delivered
as a batch of two. -/
theorem batch_enter_truncated_delivery_witness :
    (dispatchEvent engineLenient batchEnterEventW).1 = true ∧
    (dispatchEvent engineLenient batchEnterEventW).2.1 =
      [.onBatchFunctionEntry 2 100 5 2 [callA, callB, callNull]] ∧
    (dispatchEvent engineLenient batchEnterEventW).2.2 = engineLenient :=
  batch_enter_truncated_delivery engineLenient batchEnterEventW 5 3
    [callA, callB, callNull] callNull rfl rfl rfl (by decide) (by decide) (by decide)
    (by decide) rfl

/-- Claim C6: a BatchInvocation whose payload length is not a multiple of
sizeof(InvocationInfo) fails: no handler callback and the fault latches;
otherwise the callback receives exactly payload_length /
sizeof(InvocationInfo) invocations and the state is unchanged. -/
theorem batch_invocation_length_check (st : EngineState) (e : Event)
    (hg : e.header.guid = kCallTraceEventClass)
    (ht : e.header.eventType = .batchInvocation) :
    (e.mofLength % sizeofInvocationInfo ≠ 0 →
      (dispatchEvent st e).2.1 = [] ∧
      (dispatchEvent st e).2.2 = { st with error_occurred := true }) ∧
    (∀ raw, e.mofLength % sizeofInvocationInfo = 0 → e.payload = .batchInvocation raw →
      (dispatchEvent st e).1 = true ∧
      (dispatchEvent st e).2.1 =
        [.onInvocationBatch e.header.timestamp e.header.processId e.header.threadId
          (e.mofLength / sizeofInvocationInfo) raw] ∧
      (dispatchEvent st e).2.2 = st) := by
  constructor
  · intro hmod
    simp [dispatchEvent, dispatchBatchInvocationEvent, hg, ht, hmod]
  · intro raw hmod hp
    simp [dispatchEvent, dispatchBatchInvocationEvent, hg, ht, hmod, hp]

/-- Witness for C6: both branches, at a 41-byte and an 80-byte record. -/
theorem batch_invocation_length_check_witness :
    ((dispatchEvent engineLenient invocationEventBad).2.1 = [] ∧
      (dispatchEvent engineLenient invocationEventBad).2.2 =
        { engineLenient with error_occurred := true }) ∧
    ((dispatchEvent engineLenient invocationEventGood).1 = true ∧
      (dispatchEvent engineLenient invocationEventGood).2.1 =
        [.onInvocationBatch 3 1 2 2 0] ∧
      (dispatchEvent engineLenient invocationEventGood).2.2 = engineLenient) :=
  ⟨(batch_invocation_length_check engineLenient invocationEventBad rfl rfl).1 (by decide),
    (batch_invocation_length_check engineLenient invocationEventGood rfl rfl).2 0
      (by decide) rfl⟩

/-- Claim C4 counterexample: with frequency_size = num_entries = 0 the
claimed expected length offsetof(TraceIndexedFrequencyData, frequency_data)
+ frequency_size * num_entries is one byte short of the whole struct, so a
record whose payload length equals the expected length fails the
struct-size pre-check (parse_engine.cc:440-443) — the fault latches and no
callback is invoked — instead of being dispatched successfully. -/
theorem indexed_frequency_boundary_counterexample :
    (dispatchEvent engineLenient degenerateFrequencyEvent).2.2.error_occurred = true ∧
    (dispatchEvent engineLenient degenerateFrequencyEvent).2.1 = [] := by decide

/-- Claim C4 (amended): for an IndexedFrequency record with
frequency_size * num_entries >= 1 (so the expected length covers the whole
fixed struct), a payload of exactly expected_length =
offsetof(TraceIndexedFrequencyData, frequency_data) + frequency_size *
num_entries dispatches successfully, and a payload of expected_length - 1
fails as a short record: no callback, fault latched. -/
theorem indexed_frequency_boundary (st : EngineState) (e : Event) (fs ne : Nat)
    (hg : e.header.guid = kCallTraceEventClass)
    (ht : e.header.eventType = .indexedFrequency)
    (hp : e.payload = .indexedFrequency fs ne)
    (hone : 1 ≤ fs * ne) :
    (e.mofLength = offsetFrequencyData + fs * ne →
      (dispatchEvent st e).1 = true ∧
      (dispatchEvent st e).2.1 =
        [.onIndexedFrequency e.header.timestamp e.header.processId e.header.threadId
          fs ne] ∧
      (dispatchEvent st e).2.2 = st) ∧
    (e.mofLength = offsetFrequencyData + fs * ne - 1 →
      (dispatchEvent st e).2.1 = [] ∧
      (dispatchEvent st e).2.2 = { st with error_occurred := true }) := by
  constructor
  · intro hlen
    have h1 : ¬ e.mofLength < sizeofTraceIndexedFrequencyData := by
      simp only [offsetFrequencyData, sizeofTraceIndexedFrequencyData] at hlen ⊢
      omega
    have h2 : ¬ e.mofLength < fs * ne + sizeofTraceIndexedFrequencyData - 1 := by
      simp only [offsetFrequencyData, sizeofTraceIndexedFrequencyData] at hlen ⊢
      omega
    simp [dispatchEvent, dispatchIndexedFrequencyEvent, hg, ht, hp, h1, h2]
  · intro hlen
    by_cases h1 : e.mofLength < sizeofTraceIndexedFrequencyData
    · simp [dispatchEvent, dispatchIndexedFrequencyEvent, hg, ht, hp, h1]
    · have h2 : e.mofLength < fs * ne + sizeofTraceIndexedFrequencyData - 1 := by
        simp only [offsetFrequencyData, sizeofTraceIndexedFrequencyData] at hlen h1 ⊢
        omega
      simp [dispatchEvent, dispatchIndexedFrequencyEvent, hg, ht, hp, h1, h2]

/-- Witness for the amended C4: both branches, with 2 x 3 tail bytes. -/
theorem indexed_frequency_boundary_witness :
    ((dispatchEvent engineLenient freqEventOk).1 = true ∧
      (dispatchEvent engineLenient freqEventOk).2.1 =
        [.onIndexedFrequency 5 3 4 2 3] ∧
      (dispatchEvent engineLenient freqEventOk).2.2 = engineLenient) ∧
    ((dispatchEvent engineLenient freqEventShort).2.1 = [] ∧
      (dispatchEvent engineLenient freqEventShort).2.2 =
        { engineLenient with error_occurred := true }) :=
  ⟨(indexed_frequency_boundary engineLenient freqEventOk 2 3 rfl rfl rfl
      (by decide)).1 (by decide),
    (indexed_frequency_boundary engineLenient freqEventShort 2 3 rfl rfl rfl
      (by decide)).2 (by decide)⟩

/-- Claim C1 counterexample: with fail_on_module_conflict = true, attaching
two modules at the same base and size with different checksums does NOT
latch the fault: error_occurred() is still false after the second dispatch,
because DispatchModuleEvent discards the failure result of
AddModuleInformation (parse_engine.cc:719). -/
theorem attach_conflict_strict_counterexample :
    (dispatchEvent (dispatchEvent engineStrict (attachEventOf moduleDataA)).2.2
      (attachEventOf moduleDataB)).2.2.error_occurred = false := by decide

/-- Claim C1 (amended): under the strict conflict policy, a second
ProcessAttach whose module range collides with a non-dirty, non-matching
entry makes AddModuleInformation report failure (possible only with
fail_on_module_conflict = true), but DispatchModuleEvent discards that
result: the dispatch returns true and error_occurred() is unchanged — the
fault does not latch. -/
theorem attach_conflict_result_discarded (st : EngineState) (e : Event)
    (d : TraceModuleData)
    (hg : e.header.guid = kCallTraceEventClass)
    (ht : e.header.eventType = .processAttach)
    (hp : e.payload = .moduleData d)
    (hlen : sizeofTraceModuleData ≤ e.mofLength)
    (hbase : d.moduleBaseAddr ≠ 0)
    (hfail : (addModuleInformation st e.header.processId
      (moduleTraceDataToModuleInformation d)).1 = false) :
    st.fail_on_module_conflict = true ∧
    (dispatchEvent st e).1 = true ∧
    (dispatchEvent st e).2.2.error_occurred = st.error_occurred := by
  have hframe := (addModuleInformation_flags st e.header.processId
    (moduleTraceDataToModuleInformation d)).2
  have h1 : ¬ e.mofLength < sizeofTraceModuleData := Nat.not_lt.mpr hlen
  refine ⟨addModuleInformation_false_flag _ _ _ hfail, ?_, ?_⟩
  · simp [dispatchEvent, hg]
  · simp [dispatchEvent, dispatchModuleEvent, hg, ht, hp, h1, hbase, hframe]

/-- Witness for the amended C1: the concrete strict-mode conflict. -/
theorem attach_conflict_result_discarded_witness :
    conflictState.fail_on_module_conflict = true ∧
    (dispatchEvent conflictState (attachEventOf moduleDataB)).1 = true ∧
    (dispatchEvent conflictState (attachEventOf moduleDataB)).2.2.error_occurred =
      conflictState.error_occurred :=
  attach_conflict_result_discarded conflictState (attachEventOf moduleDataB) moduleDataB
    rfl rfl rfl (by decide) (by decide) (by decide)

/-- Claim C8: once every stored module of a pid is dirty (as after a
process-end), a ProcessAttach for that pid whose checksum differs from
every stored entry evicts the colliding dirty entries and installs the new
module: the dispatch returns true, the fault flag is unchanged, and a
lookup at the new module's base address returns it (clean). -/
theorem stale_pid_reuse_eviction (st : EngineState) (e : Event) (d : TraceModuleData)
    (hg : e.header.guid = kCallTraceEventClass)
    (ht : e.header.eventType = .processAttach)
    (hp : e.payload = .moduleData d)
    (hlen : sizeofTraceModuleData ≤ e.mofLength)
    (hbase : d.moduleBaseAddr ≠ 0)
    (hsize : d.moduleBaseSize ≠ 0)
    (hname : d.moduleName ≠ "")
    (hd : ∀ x ∈ (pmFind? st.processes e.header.processId).getD [],
      x.2.is_dirty = true)
    (hck : ∀ x ∈ (pmFind? st.processes e.header.processId).getD [],
      x.2.module_checksum ≠ d.moduleChecksum) :
    (dispatchEvent st e).1 = true ∧
    (dispatchEvent st e).2.2.error_occurred = st.error_occurred ∧
    getModuleInformation (dispatchEvent st e).2.2 e.header.processId d.moduleBaseAddr =
      some { toModuleInformation := moduleTraceDataToModuleInformation d,
             is_dirty := false } := by
  have hmain := addModuleInformation_allDirty st e.header.processId
    (moduleTraceDataToModuleInformation d) hsize hname hd hck
  have hframe := (addModuleInformation_flags st e.header.processId
    (moduleTraceDataToModuleInformation d)).2
  have h1 : ¬ e.mofLength < sizeofTraceModuleData := Nat.not_lt.mpr hlen
  refine ⟨?_, ?_, ?_⟩
  · simp [dispatchEvent, hg]
  · simp [dispatchEvent, dispatchModuleEvent, hg, ht, hp, h1, hbase, hframe]
  · simp only [dispatchEvent, dispatchModuleEvent, hg, ht, hp, h1, hbase]
    simpa using hmain.2

/-- Witness for C8: attach, process-end, re-attach with a new checksum. -/
theorem stale_pid_reuse_eviction_witness :
    (dispatchEvent staleReuseState (attachEvent50 moduleDataB)).1 = true ∧
    (dispatchEvent staleReuseState (attachEvent50 moduleDataB)).2.2.error_occurred =
      staleReuseState.error_occurred ∧
    getModuleInformation (dispatchEvent staleReuseState (attachEvent50 moduleDataB)).2.2
      50 moduleDataB.moduleBaseAddr =
      some { toModuleInformation := moduleTraceDataToModuleInformation moduleDataB,
             is_dirty := false } :=
  stale_pid_reuse_eviction staleReuseState (attachEvent50 moduleDataB) moduleDataB
    rfl rfl rfl (by decide) (by decide) (by decide) (by decide) (by decide) (by decide)

/-- Claim C9 (IM1): in every ModuleSpace of every engine state reachable by
any sequence of AddModule, RemoveModule and RemoveProcess operations, no
two distinct non-dirty entries have overlapping half-open ranges. -/
theorem no_nondirty_overlap_reachable (st : EngineState) (h : Reachable st)
    (pid : Nat) (sp : ModuleSpace) (hf : pmFind? st.processes pid = some sp)
    (a b : Range × AnnotatedModuleInformation) (ha : a ∈ sp) (hb : b ∈ sp)
    (hda : a.2.is_dirty = false) (hdb : b.2.is_dirty = false) (hab : a ≠ b) :
    a.1.intersects b.1 = false := by
  have hdisj : spaceDisjoint sp := reachable_processesDisjoint st h pid sp hf
  exact hdisj.forall (fun x y hxy => by rwa [Range.intersects_comm]) ha hb hab

/-- Witness for C9: two disjoint modules added to a fresh engine. -/
theorem no_nondirty_overlap_reachable_witness :
    entryX.1.intersects entryY.1 = false :=
  no_nondirty_overlap_reachable twoModuleState
    (Reachable.addModule _ 1 moduleInfoY
      (Reachable.addModule _ 1 moduleInfoX (Reachable.init false)))
    1 [entryX, entryY] (by decide) entryX entryY (by decide) (by decide) rfl rfl
    (by decide)

end Syzygy
